import Mathlib

/-!
Shallow embedding of the xcap Windows capture engine
(file src/windows/capture.rs) together with theorems settling the
specification claims about it.

Modelling conventions:
* Machine integers are modelled as Int with explicit two's-complement
  wrapping (wrapI32) where the source performs i32 arithmetic, and the
  Rust casts `as usize` / `as u32` are modelled by i32ToUsize / i32ToU32.
* The f32 scale-factor arithmetic of inne_capture_window is modelled over
  the rationals (exact arithmetic); the Rust `as i32` float-to-int cast is
  saturating truncation toward zero (f32AsI32).
* Native calls (GetWindowRect, DwmIsCompositionEnabled, PrintWindow,
  BitBlt, GetDIBits) are external: their outcomes are supplied by a
  CaptureEnv record, and each capture function additionally returns the
  trace of resource/attempt events it performed, in program order.
-/

deriving instance DecidableEq for Except

namespace XCap

/-! ## Machine-integer helpers -/

/-- Smallest i32 value. -/
def i32Min : Int := -2147483648

/-- Largest i32 value. -/
def i32Max : Int := 2147483647

/-- Two's-complement wrapping of an integer into the i32 range: the result
of Rust release-mode i32 arithmetic. -/
def wrapI32 (x : Int) : Int := (x + 2147483648) % 4294967296 - 2147483648

/-- The Rust cast `as usize` (64-bit) applied to an i32 value: sign
extension reinterpreted as an unsigned 64-bit quantity. -/
def i32ToUsize (x : Int) : Nat := (x % 18446744073709551616).toNat

/-- The Rust cast `as u32` applied to an i32 value. -/
def i32ToU32 (x : Int) : Nat := (x % 4294967296).toNat

/-- Truncation toward zero of a rational. -/
def ratTrunc (x : ℚ) : Int := if 0 ≤ x then ⌊x⌋ else -⌊-x⌋

/-- The Rust `as i32` cast from f32: truncation toward zero, saturating at
the i32 bounds (the f32 arithmetic itself is modelled exactly). -/
def f32AsI32 (x : ℚ) : Int := max i32Min (min i32Max (ratTrunc x))

/-! ## Color normalization (the per-pixel loop of to_rgba_image) -/

/-- The alpha-byte correction of the to_rgba_image loop: an alpha of 0 is
forced to 255 when the OS major version is below 8 (issue 92 workaround). -/
def alphaFix (osMajorVersion a : Nat) : Nat :=
  if a = 0 ∧ osMajorVersion < 8 then 255 else a

/-- The normalization loop of to_rgba_image: for every complete 4-byte
chunk of the buffer, swap bytes 0 and 2 and apply the alpha correction;
an incomplete trailing chunk is left untouched (chunks_exact_mut). -/
def normalize (osMajorVersion : Nat) : List Nat → List Nat
  | b :: g :: r :: a :: rest =>
      r :: g :: b :: alphaFix osMajorVersion a :: normalize osMajorVersion rest
  | rest => rest

lemma normalize_cons4 (os b g r a : Nat) (rest : List Nat) :
    normalize os (b :: g :: r :: a :: rest) =
      r :: g :: b :: alphaFix os a :: normalize os rest := rfl

lemma normalize_length (os : Nat) : ∀ buf : List Nat,
    (normalize os buf).length = buf.length
  | [] => rfl
  | [_] => rfl
  | [_, _] => rfl
  | [_, _, _] => rfl
  | _ :: _ :: _ :: _ :: rest => by
      simp [normalize_cons4, normalize_length os rest]

lemma normalize_getD_chunk (os : Nat) : ∀ (i : Nat) (buf : List Nat),
    4 * i + 3 < buf.length →
    (normalize os buf).getD (4 * i) 0 = buf.getD (4 * i + 2) 0 ∧
    (normalize os buf).getD (4 * i + 1) 0 = buf.getD (4 * i + 1) 0 ∧
    (normalize os buf).getD (4 * i + 2) 0 = buf.getD (4 * i) 0 ∧
    (normalize os buf).getD (4 * i + 3) 0 = alphaFix os (buf.getD (4 * i + 3) 0) := by
  intro i
  induction i with
  | zero =>
    intro buf h
    match buf, h with
    | b :: g :: r :: a :: rest, _ =>
      refine ⟨rfl, rfl, rfl, rfl⟩
  | succ i ih =>
    intro buf h
    match buf, h with
    | b :: g :: r :: a :: rest, h =>
      have hr : 4 * i + 3 < rest.length := by
        simp only [List.length_cons] at h
        omega
      have hrec := ih rest hr
      have e0 : 4 * (i + 1) = 4 * i + 1 + 1 + 1 + 1 := by omega
      have f2 : 4 * i + 1 + 1 + 1 + 1 + 2 = 4 * i + 2 + 1 + 1 + 1 + 1 := by omega
      have f3 : 4 * i + 1 + 1 + 1 + 1 + 3 = 4 * i + 3 + 1 + 1 + 1 + 1 := by omega
      rw [normalize_cons4, e0, f2, f3]
      simpa using hrec

lemma normalize_getD_mod1 (os : Nat) : ∀ (buf : List Nat) (i : Nat),
    i % 4 = 1 → (normalize os buf).getD i 0 = buf.getD i 0
  | [], _, _ => rfl
  | [_], _, _ => rfl
  | [_, _], _, _ => rfl
  | [_, _, _], _, _ => rfl
  | b :: g :: r :: a :: rest, i, hi => by
      rcases Nat.lt_or_ge i 4 with h4 | h4
      · have : i = 1 := by omega
        subst this
        rfl
      · obtain ⟨j, rfl⟩ : ∃ j, i = j + 1 + 1 + 1 + 1 := ⟨i - 4, by omega⟩
        rw [normalize_cons4]
        simpa using normalize_getD_mod1 os rest j (by omega)

lemma normalize_getD_tail (os : Nat) : ∀ (buf : List Nat) (i : Nat),
    4 * (buf.length / 4) ≤ i → (normalize os buf).getD i 0 = buf.getD i 0
  | [], _, _ => rfl
  | [_], _, _ => rfl
  | [_, _], _, _ => rfl
  | [_, _, _], _, _ => rfl
  | b :: g :: r :: a :: rest, i, hi => by
      have hlen : (b :: g :: r :: a :: rest).length = rest.length + 4 := by
        simp
      have hi4 : 4 * (rest.length / 4) + 4 ≤ i := by
        rw [hlen] at hi
        omega
      obtain ⟨j, rfl⟩ : ∃ j, i = j + 1 + 1 + 1 + 1 := ⟨i - 4, by omega⟩
      rw [normalize_cons4]
      simpa using normalize_getD_tail os rest j (by omega)

/-! ## The capture environment and event traces -/

/-- A window rectangle as returned by get_window_rect (i32 fields). -/
structure WinRect where
  left : Int
  top : Int
  right : Int
  bottom : Int
deriving DecidableEq, Repr

/-- The four fallback tiers of inne_capture_window: PrintWindow flag 2,
PrintWindow flag 0, PrintWindow flag 3, direct BitBlt. -/
inductive Tier where
  | tier1
  | tier2
  | tier3
  | tier4
deriving DecidableEq, Repr

/-- Modelled from the spec: resource-lifecycle and capture-attempt events.
The release events for BoxHDC and BoxHBITMAP come from the boxed module,
which is not among the given sources; following section 4.1 of the spec
(scoped acquisition), each owned handle is released exactly when its
owning Rust scope exits, in reverse declaration order, on every exit path.
Acquire, select, restore, composition-query and tier-attempt events are
placed exactly where src/windows/capture.rs performs the corresponding
native call. -/
inductive Event where
  | acquireSourceDC
  | acquireMemDC
  | acquireBitmap
  | selectBitmap
  | queryComposition
  | attempt (t : Tier)
  | restorePrevious
  | releaseBitmap
  | releaseMemDC
  | releaseSourceDC
deriving DecidableEq, Repr

/-- Outcomes of the external native calls made during a capture, supplied
as an oracle: get_os_major_version (cached), get_window_rect,
DwmIsCompositionEnabled (none models the query failing), the three
PrintWindow calls, the two BitBlt calls, the GetDIBits scan-line count
(0 models failure) and the bytes GetDIBits leaves in the buffer. -/
structure CaptureEnv where
  osMajorVersion : Nat
  windowRect : Option WinRect
  compositionEnabled : Option Bool
  printWindowFlag2 : Bool
  printWindowFlag0 : Bool
  printWindowFlag3 : Bool
  windowBitBltOk : Bool
  monitorBitBltOk : Bool
  getDIBitsResult : Nat
  nativeByte : Nat → Nat

/-- Whether an event acquires an owned native handle. -/
def Event.isAcquire : Event → Bool
  | .acquireSourceDC | .acquireMemDC | .acquireBitmap => true
  | _ => false

/-- Whether an event releases an owned native handle. -/
def Event.isRelease : Event → Bool
  | .releaseBitmap | .releaseMemDC | .releaseSourceDC => true
  | _ => false

/-- Number of acquisitions in a trace. -/
def countAcquires (tr : List Event) : Nat := (tr.filter Event.isAcquire).length

/-- Number of releases in a trace. -/
def countReleases (tr : List Event) : Nat := (tr.filter Event.isRelease).length

/-- A trace is balanced when, for each owned handle, the number of
acquisitions equals the number of releases, and acquisitions and releases
balance in aggregate. -/
def balanced (tr : List Event) : Prop :=
  tr.count Event.acquireSourceDC = tr.count Event.releaseSourceDC ∧
  tr.count Event.acquireMemDC = tr.count Event.releaseMemDC ∧
  tr.count Event.acquireBitmap = tr.count Event.releaseBitmap ∧
  countAcquires tr = countReleases tr

/-! ## Pixel extraction (get_bgra_image_data) -/

/-- The buffer size computed by get_bgra_image_data:
width * height * 4 in wrapping i32 arithmetic. -/
def bgraBufferSize (width height : Int) : Int :=
  wrapI32 (wrapI32 (width * height) * 4)

/-- The buffer that get_bgra_image_data hands back on success: a vector of
i32ToUsize (bgraBufferSize ..) bytes whose content GetDIBits wrote. -/
def extractedBuffer (env : CaptureEnv) (width height : Int) : List Nat :=
  (List.range (i32ToUsize (bgraBufferSize width height))).map env.nativeByte

/-- Embedding of get_bgra_image_data: allocates the buffer, calls GetDIBits
and fails exactly when it reports 0 scan lines copied; the two owned
handles passed in by value are dropped (released) at scope exit on both
paths, bitmap first. -/
def getBgraImageData (env : CaptureEnv) (width height : Int) :
    List Event × Except String (List Nat) :=
  if env.getDIBitsResult = 0 then
    ([Event.releaseBitmap, Event.releaseMemDC], .error "Get RGBA data failed")
  else
    ([Event.releaseBitmap, Event.releaseMemDC], .ok (extractedBuffer env width height))

/-! ## Image construction (to_rgba_image) -/

/-- The public image value: width, height (u32) and the RGBA byte list. -/
structure RgbaImage where
  width : Nat
  height : Nat
  pixels : List Nat
deriving DecidableEq, Repr

/-- RgbaImage::from_raw of the image crate: succeeds iff the container
holds at least width * height * 4 bytes. -/
def rgbaFromRaw (width height : Nat) (pixels : List Nat) : Option RgbaImage :=
  if width * height * 4 ≤ pixels.length then some ⟨width, height, pixels⟩ else none

/-- Embedding of to_rgba_image: extract the BGRA bytes, run the
normalization loop, and build the image (width and height are cast
`as u32`); from_raw failure is reported as an error. -/
def toRgbaImage (env : CaptureEnv) (width height : Int) :
    List Event × Except String RgbaImage :=
  let p := getBgraImageData env width height
  match p.2 with
  | .error e => (p.1, .error e)
  | .ok buffer =>
    match rgbaFromRaw (i32ToU32 width) (i32ToU32 height)
        (normalize env.osMajorVersion buffer) with
    | some img => (p.1, .ok img)
    | none => (p.1, .error "RgbaImage from_raw failed")

/-! ## Monitor capture (inner_capture_monitor and its entry points) -/

/-- Embedding of inner_capture_monitor: borrow the desktop DC (owned
wrapper released at scope exit), create the memory DC and compatible
bitmap, select the bitmap in (the previous object is not remembered), and
BitBlt the desktop region; the question-mark on BitBlt makes its failure
an early return on which all three owned handles are dropped in reverse
order, while on success the memory DC and bitmap are moved to the caller
and only the desktop DC is released here. -/
def innerCaptureMonitor (env : CaptureEnv) (_x _y _width _height : Int) :
    List Event × Except String Unit :=
  let setup := [Event.acquireSourceDC, Event.acquireMemDC, Event.acquireBitmap,
                Event.selectBitmap]
  if env.monitorBitBltOk then
    (setup ++ [Event.releaseSourceDC], .ok ())
  else
    (setup ++ [Event.releaseBitmap, Event.releaseMemDC, Event.releaseSourceDC],
     .error "BitBlt failed")

/-- Embedding of capture_monitor_bgra_data: inner_capture_monitor followed
by get_bgra_image_data on the returned handles. -/
def captureMonitorBgraData (env : CaptureEnv) (x y width height : Int) :
    List Event × Except String (List Nat) :=
  let p := innerCaptureMonitor env x y width height
  match p.2 with
  | .error e => (p.1, .error e)
  | .ok () =>
    let q := getBgraImageData env width height
    (p.1 ++ q.1, q.2)

/-- Embedding of capture_monitor: inner_capture_monitor followed by
to_rgba_image on the returned handles. -/
def captureMonitor (env : CaptureEnv) (x y width height : Int) :
    List Event × Except String RgbaImage :=
  let p := innerCaptureMonitor env x y width height
  match p.2 with
  | .error e => (p.1, .error e)
  | .ok () =>
    let q := toRgbaImage env width height
    (p.1 ++ q.1, q.2)

/-! ## Window capture (inne_capture_window and its entry points) -/

/-- The values inne_capture_window returns along with the two owned
handles: the scaled width and height, plus the final value of the
is_success flag (which the source computes but never checks). -/
structure WindowSurface where
  width : Int
  height : Int
  succeeded : Bool
deriving DecidableEq, Repr

/-- Embedding of inne_capture_window. Faithful points: the window DC is
wrapped first; get_window_rect failure is an early return; the raw
dimensions are the rectangle differences, scaled by the f32 factor with
the `as i32` cast; GetObjectW's result is ignored (its body is commented
out in the source); the previously selected object is remembered; Tier 1
(PrintWindow flag 2) runs only when the cached OS major version is at
least 8; the composition query runs only when is_success is still false
(Rust short-circuit and-then), and its failure is an early return on
which the owned handles are dropped without restoring the previous
object; Tier 2 (flag 0) runs only when composition is enabled; Tier 3
(flag 3) and Tier 4 (BitBlt) run while is_success is false; finally the
previous object is restored and the function returns Ok unconditionally,
releasing only the window DC (memory DC and bitmap move to the caller). -/
def inneCaptureWindow (env : CaptureEnv) (scaleFactor : ℚ) :
    List Event × Except String WindowSurface :=
  match env.windowRect with
  | none =>
    ([Event.acquireSourceDC, Event.releaseSourceDC], .error "GetWindowRect failed")
  | some rect =>
    let width := f32AsI32 ((wrapI32 (rect.right - rect.left) : ℚ) * scaleFactor)
    let height := f32AsI32 ((wrapI32 (rect.bottom - rect.top) : ℚ) * scaleFactor)
    let setup := [Event.acquireSourceDC, Event.acquireMemDC, Event.acquireBitmap,
                  Event.selectBitmap]
    let tier1 : List Event × Bool :=
      if 8 ≤ env.osMajorVersion then ([Event.attempt Tier.tier1], env.printWindowFlag2)
      else ([], false)
    if tier1.2 then
      (setup ++ tier1.1 ++ [Event.restorePrevious, Event.releaseSourceDC],
       .ok ⟨width, height, true⟩)
    else
      match env.compositionEnabled with
      | none =>
        (setup ++ tier1.1 ++ [Event.queryComposition, Event.releaseBitmap,
          Event.releaseMemDC, Event.releaseSourceDC],
         .error "DwmIsCompositionEnabled failed")
      | some comp =>
        let tier2 : List Event × Bool :=
          if comp then ([Event.attempt Tier.tier2], env.printWindowFlag0)
          else ([], false)
        let tier3 : List Event × Bool :=
          if tier2.2 then ([], true)
          else ([Event.attempt Tier.tier3], env.printWindowFlag3)
        let tier4 : List Event × Bool :=
          if tier3.2 then ([], true)
          else ([Event.attempt Tier.tier4], env.windowBitBltOk)
        (setup ++ tier1.1 ++ [Event.queryComposition] ++ tier2.1 ++ tier3.1 ++
           tier4.1 ++ [Event.restorePrevious, Event.releaseSourceDC],
         .ok ⟨width, height, tier4.2⟩)

/-- Embedding of capture_window: inne_capture_window followed by
to_rgba_image on the returned surface. -/
def captureWindow (env : CaptureEnv) (scaleFactor : ℚ) :
    List Event × Except String RgbaImage :=
  let p := inneCaptureWindow env scaleFactor
  match p.2 with
  | .error e => (p.1, .error e)
  | .ok surf =>
    let q := toRgbaImage env surf.width surf.height
    (p.1 ++ q.1, q.2)

/-- Embedding of capture_window_bgra_data: inne_capture_window followed by
get_bgra_image_data. -/
def captureWindowBgraData (env : CaptureEnv) (scaleFactor : ℚ) :
    List Event × Except String (List Nat) :=
  let p := inneCaptureWindow env scaleFactor
  match p.2 with
  | .error e => (p.1, .error e)
  | .ok surf =>
    let q := getBgraImageData env surf.width surf.height
    (p.1 ++ q.1, q.2)

/-! ## Spec-side tier predicates (the conditions the claims attach to the
four tiers), stated independently of the trace so the tier-selection
theorems compare the embedded code against them. -/

/-- Spec-side: Tier 1 is attempted iff the cached major version is at
least 8. -/
def tier1Attempted (env : CaptureEnv) : Bool := decide (8 ≤ env.osMajorVersion)

/-- Spec-side: Tier 1 succeeded. -/
def tier1Succeeded (env : CaptureEnv) : Bool :=
  tier1Attempted env && env.printWindowFlag2

/-- Spec-side: the composition query reported composition enabled. -/
def compositionIsEnabled (env : CaptureEnv) : Bool :=
  env.compositionEnabled == some true

/-- Spec-side: Tier 2 is attempted iff Tier 1 was skipped or failed and
composition is enabled. -/
def tier2Attempted (env : CaptureEnv) : Bool :=
  !tier1Succeeded env && compositionIsEnabled env

/-- Spec-side: Tier 2 succeeded. -/
def tier2Succeeded (env : CaptureEnv) : Bool :=
  tier2Attempted env && env.printWindowFlag0

/-- Spec-side: Tier 3 is attempted iff no earlier tier succeeded. -/
def tier3Attempted (env : CaptureEnv) : Bool :=
  !(tier1Succeeded env || tier2Succeeded env)

/-- Spec-side: Tier 3 succeeded. -/
def tier3Succeeded (env : CaptureEnv) : Bool :=
  tier3Attempted env && env.printWindowFlag3

/-- Spec-side: Tier 4 is attempted iff no earlier tier succeeded. -/
def tier4Attempted (env : CaptureEnv) : Bool :=
  !(tier1Succeeded env || tier2Succeeded env || tier3Succeeded env)

/-- Spec-side: Tier 4 succeeded. -/
def tier4Succeeded (env : CaptureEnv) : Bool :=
  tier4Attempted env && env.windowBitBltOk

/-! ## Helper lemmas -/

lemma wrapI32_eq_self {x : Int} (h1 : i32Min ≤ x) (h2 : x ≤ i32Max) :
    wrapI32 x = x := by
  unfold i32Min at h1
  unfold i32Max at h2
  unfold wrapI32
  omega

lemma i32ToUsize_of_nonneg {x : Int} (h : 0 ≤ x) (h2 : x ≤ i32Max) :
    i32ToUsize x = x.toNat := by
  unfold i32Max at h2
  unfold i32ToUsize
  omega

lemma i32ToU32_of_nonneg {x : Int} (h : 0 ≤ x) (h2 : x ≤ i32Max) :
    i32ToU32 x = x.toNat := by
  unfold i32Max at h2
  unfold i32ToU32
  omega

lemma f32AsI32_le (x : ℚ) : f32AsI32 x ≤ i32Max := by
  unfold f32AsI32
  exact max_le (by decide) (min_le_left _ _)

lemma le_f32AsI32 (x : ℚ) : i32Min ≤ f32AsI32 x := le_max_left _ _

lemma ratTrunc_intCast (n : Int) : ratTrunc (n : ℚ) = n := by
  unfold ratTrunc
  by_cases h : (0 : ℚ) ≤ (n : ℚ)
  · rw [if_pos h, Int.floor_intCast]
  · rw [if_neg h, show (-(n : ℚ)) = ((-n : Int) : ℚ) by push_cast; ring,
      Int.floor_intCast]
    ring

lemma f32AsI32_intCast (n : Int) (h1 : i32Min ≤ n) (h2 : n ≤ i32Max) :
    f32AsI32 (n : ℚ) = n := by
  unfold f32AsI32
  rw [ratTrunc_intCast, min_eq_right h2, max_eq_right h1]

lemma f32AsI32_floor (x : ℚ) (h1 : 0 ≤ x) (h2 : x ≤ ((i32Max : Int) : ℚ)) :
    f32AsI32 x = ⌊x⌋ := by
  unfold f32AsI32 ratTrunc
  rw [if_pos h1]
  have hfl : ⌊x⌋ ≤ i32Max := by
    have := Int.floor_le_floor h2
    rwa [Int.floor_intCast] at this
  have h0 : (0 : Int) ≤ ⌊x⌋ := Int.floor_nonneg.mpr h1
  rw [min_eq_right hfl, max_eq_right ((by decide : i32Min ≤ (0 : Int)).trans h0)]

lemma extractedBuffer_length (env : CaptureEnv) (width height : Int) :
    (extractedBuffer env width height).length
      = i32ToUsize (bgraBufferSize width height) := by
  simp [extractedBuffer]

/-- For dimensions in i32 range whose pixel count does not overflow,
the allocated buffer holds exactly width * height * 4 bytes. -/
lemma bgraBufferSize_exact {w h : Int} (hw : 0 ≤ w) (hh : 0 ≤ h)
    (hr : w * h * 4 ≤ i32Max) :
    i32ToUsize (bgraBufferSize w h) = w.toNat * h.toNat * 4 := by
  obtain ⟨a, rfl⟩ : ∃ a : Nat, w = (a : Int) := ⟨w.toNat, (Int.toNat_of_nonneg hw).symm⟩
  obtain ⟨b, rfl⟩ : ∃ b : Nat, h = (b : Int) := ⟨h.toNat, (Int.toNat_of_nonneg hh).symm⟩
  have hcast : ((a : Int) * b * 4) = ((a * b * 4 : Nat) : Int) := by push_cast; ring
  have hcast2 : ((a : Int) * b) = ((a * b : Nat) : Int) := by push_cast; ring
  rw [hcast] at hr
  have hr2 : ((a * b : Nat) : Int) ≤ i32Max := by
    have : ((a * b : Nat) : Int) ≤ ((a * b * 4 : Nat) : Int) := by
      push_cast
      nlinarith [Nat.zero_le (a * b)]
    exact this.trans hr
  have h1 : wrapI32 ((a : Int) * b) = ((a * b : Nat) : Int) := by
    rw [hcast2]
    exact wrapI32_eq_self ((by decide : i32Min ≤ 0).trans (Int.natCast_nonneg _)) hr2
  have h2 : bgraBufferSize (a : Int) (b : Int) = ((a * b * 4 : Nat) : Int) := by
    unfold bgraBufferSize
    rw [h1]
    have hc4 : ((a * b : Nat) : Int) * 4 = ((a * b * 4 : Nat) : Int) := by push_cast; ring
    rw [hc4]
    exact wrapI32_eq_self ((by decide : i32Min ≤ 0).trans (Int.natCast_nonneg _)) hr
  rw [h2, i32ToUsize_of_nonneg (Int.natCast_nonneg _) hr]
  exact Int.toNat_natCast _

lemma getBgraImageData_fst (env : CaptureEnv) (width height : Int) :
    (getBgraImageData env width height).1
      = [Event.releaseBitmap, Event.releaseMemDC] := by
  unfold getBgraImageData
  split <;> rfl

lemma toRgbaImage_fst (env : CaptureEnv) (width height : Int) :
    (toRgbaImage env width height).1
      = [Event.releaseBitmap, Event.releaseMemDC] := by
  unfold toRgbaImage
  rcases hq : (getBgraImageData env width height) with ⟨tr, r⟩
  have htr : tr = [Event.releaseBitmap, Event.releaseMemDC] := by
    have := getBgraImageData_fst env width height
    rw [hq] at this
    exact this
  cases r with
  | error e => simpa using htr
  | ok buffer =>
    dsimp only
    cases hfr : rgbaFromRaw (i32ToU32 width) (i32ToU32 height)
        (normalize env.osMajorVersion buffer) with
    | none => simpa [hfr] using htr
    | some img => simpa [hfr] using htr

/-- On every successful return, the surface dimensions are exactly the
scaled window-rectangle differences. -/
lemma inneCaptureWindow_ok (env : CaptureEnv) (scale : ℚ) (surf : WindowSurface)
    (hok : (inneCaptureWindow env scale).2 = .ok surf) :
    ∃ rect, env.windowRect = some rect ∧
      surf.width = f32AsI32 ((wrapI32 (rect.right - rect.left) : ℚ) * scale) ∧
      surf.height = f32AsI32 ((wrapI32 (rect.bottom - rect.top) : ℚ) * scale) := by
  unfold inneCaptureWindow at hok
  cases hrect : env.windowRect with
  | none => rw [hrect] at hok; simp at hok
  | some rect =>
    rw [hrect] at hok
    refine ⟨rect, rfl, ?_⟩
    dsimp only at hok
    by_cases h1 : (if 8 ≤ env.osMajorVersion then
        ([Event.attempt Tier.tier1], env.printWindowFlag2)
      else ([], false)).2 = true
    · rw [if_pos h1] at hok
      simp only [Except.ok.injEq] at hok
      rw [← hok]
      exact ⟨rfl, rfl⟩
    · rw [if_neg h1] at hok
      cases hc : env.compositionEnabled with
      | none => rw [hc] at hok; simp at hok
      | some comp =>
        rw [hc] at hok
        simp only [Except.ok.injEq] at hok
        rw [← hok]
        exact ⟨rfl, rfl⟩

/-! ## Claim theorems: normalization (C3, C5, C10) -/

/-- Claim C3: for every complete pixel of the buffer, normalization maps a
native alpha byte of 0 to 255 when the OS major version is below 8, leaves
any nonzero alpha unchanged on every version, and leaves alpha 0 at 0 when
the version is at least 8. -/
theorem normalize_alpha_law (os : Nat) (buf : List Nat) (i : Nat)
    (h : 4 * i + 3 < buf.length) :
    ((buf.getD (4 * i + 3) 0 = 0 ∧ os < 8) →
       (normalize os buf).getD (4 * i + 3) 0 = 255) ∧
    (buf.getD (4 * i + 3) 0 ≠ 0 →
       (normalize os buf).getD (4 * i + 3) 0 = buf.getD (4 * i + 3) 0) ∧
    ((buf.getD (4 * i + 3) 0 = 0 ∧ 8 ≤ os) →
       (normalize os buf).getD (4 * i + 3) 0 = 0) := by
  have h4 := (normalize_getD_chunk os i buf h).2.2.2
  refine ⟨fun hc => ?_, fun hc => ?_, fun hc => ?_⟩
  · rw [h4]
    exact if_pos hc
  · rw [h4]
    exact if_neg fun hand => hc hand.1
  · rw [h4]
    have h8 : ¬ os < 8 := by omega
    rw [alphaFix, if_neg fun hand => h8 hand.2]
    exact hc.1

/-- Witness for C3 at a concrete buffer: on OS major version 7, the pixel
(10, 20, 30, alpha 0) gets alpha 255 after normalization. -/
theorem normalize_alpha_law_witness :
    (normalize 7 [10, 20, 30, 0]).getD (4 * 0 + 3) 0 = 255 :=
  (normalize_alpha_law 7 [10, 20, 30, 0] 0 (by decide)).1 (by decide)

/-- Claim C5: for every complete 4-byte pixel, normalization swaps bytes 0
and 2 and keeps bytes 1 and 3 in place (byte 3 subject only to the legacy
alpha correction): a native (B, G, R, A) pixel becomes (R, G, B, A) at the
same position. -/
theorem normalize_channel_order (os : Nat) (buf : List Nat) (i : Nat)
    (h : 4 * i + 3 < buf.length) :
    (normalize os buf).getD (4 * i) 0 = buf.getD (4 * i + 2) 0 ∧
    (normalize os buf).getD (4 * i + 1) 0 = buf.getD (4 * i + 1) 0 ∧
    (normalize os buf).getD (4 * i + 2) 0 = buf.getD (4 * i) 0 ∧
    (normalize os buf).getD (4 * i + 3) 0 = alphaFix os (buf.getD (4 * i + 3) 0) :=
  normalize_getD_chunk os i buf h

/-- Witness for C5: the pixel (1, 2, 3, 4) maps to (3, 2, 1, 4) on OS 10. -/
theorem normalize_channel_order_witness :
    (normalize 10 [1, 2, 3, 4]).getD 0 0 = ([1, 2, 3, 4] : List Nat).getD 2 0 ∧
    (normalize 10 [1, 2, 3, 4]).getD 1 0 = ([1, 2, 3, 4] : List Nat).getD 1 0 ∧
    (normalize 10 [1, 2, 3, 4]).getD 2 0 = ([1, 2, 3, 4] : List Nat).getD 0 0 ∧
    (normalize 10 [1, 2, 3, 4]).getD 3 0 = alphaFix 10 (([1, 2, 3, 4] : List Nat).getD 3 0) :=
  normalize_channel_order 10 [1, 2, 3, 4] 0 (by decide)

/-- Claim C10 (implicit frame effect): normalization preserves the buffer
length, never changes byte 1 (green) of any 4-byte pixel, and leaves any
trailing bytes beyond the last complete 4-byte pixel untouched. -/
theorem normalize_frame (os : Nat) (buf : List Nat) :
    (normalize os buf).length = buf.length ∧
    (∀ i, i % 4 = 1 → (normalize os buf).getD i 0 = buf.getD i 0) ∧
    (∀ i, 4 * (buf.length / 4) ≤ i → (normalize os buf).getD i 0 = buf.getD i 0) :=
  ⟨normalize_length os buf,
   fun i hi => normalize_getD_mod1 os buf i hi,
   fun i hi => normalize_getD_tail os buf i hi⟩

/-- Witness for C10 on a 6-byte buffer (one complete pixel plus a 2-byte
tail): the length stays 6, byte 1 stays 2, and tail byte 5 stays 6. -/
theorem normalize_frame_witness :
    (normalize 7 [1, 2, 3, 4, 5, 6]).length = 6 ∧
    (normalize 7 [1, 2, 3, 4, 5, 6]).getD 1 0 = 2 ∧
    (normalize 7 [1, 2, 3, 4, 5, 6]).getD 5 0 = 6 :=
  ⟨(normalize_frame 7 [1, 2, 3, 4, 5, 6]).1,
   (normalize_frame 7 [1, 2, 3, 4, 5, 6]).2.1 1 (by decide),
   (normalize_frame 7 [1, 2, 3, 4, 5, 6]).2.2 5 (by decide)⟩

/-! ## Claim theorems: extraction (C9, C8) -/

/-- Claim C9: pixel extraction fails with the extraction error exactly
when GetDIBits reports zero scan lines copied; on any nonzero report it
returns the buffer successfully. -/
theorem getBgraImageData_zero_rows (env : CaptureEnv) (width height : Int) :
    (env.getDIBitsResult = 0 →
       (getBgraImageData env width height).2 = .error "Get RGBA data failed") ∧
    (env.getDIBitsResult ≠ 0 →
       (getBgraImageData env width height).2 = .ok (extractedBuffer env width height)) := by
  constructor <;> intro hc <;> simp [getBgraImageData, hc]

/-- An environment whose GetDIBits reports one scan line. -/
def envC9 : CaptureEnv :=
  ⟨10, none, none, false, false, false, false, false, 1, fun _ => 0⟩

/-- Witness for C9: with GetDIBits reporting 1 scan line, extraction
returns the buffer. -/
theorem getBgraImageData_zero_rows_witness :
    (getBgraImageData envC9 2 2).2 = .ok (extractedBuffer envC9 2 2) :=
  (getBgraImageData_zero_rows envC9 2 2).2 (by decide)

/-- An environment where the monitor BitBlt and GetDIBits both report
success. -/
def envC8 : CaptureEnv :=
  ⟨10, none, none, false, false, false, false, true, 1, fun _ => 0⟩

/-- Counterexample to C8 as stated: at width = height = 32768 (both
positive) the i32 product 32768 * 32768 * 4 wraps to 0, so a successful
capture_monitor_bgra_data call returns an empty buffer instead of one of
length width * height * 4. -/
theorem captureMonitorBgraData_length_cex :
    (0 : Int) < 32768 ∧
    (captureMonitorBgraData envC8 0 0 32768 32768).2 = .ok [] ∧
    ((([] : List Nat).length : Int) ≠ 32768 * 32768 * 4) :=
  ⟨by decide, rfl, by decide⟩

/-- Claim C8 (amended): for all width, height > 0 whose byte count
width * height * 4 stays within the i32 range, a successful
capture_monitor_bgra_data call returns a buffer of length exactly
width * height * 4. -/
theorem captureMonitorBgraData_length (env : CaptureEnv) (x y width height : Int)
    (buf : List Nat) (hw : 0 < width) (hh : 0 < height)
    (hr : width * height * 4 ≤ i32Max)
    (hok : (captureMonitorBgraData env x y width height).2 = .ok buf) :
    (buf.length : Int) = width * height * 4 := by
  unfold captureMonitorBgraData innerCaptureMonitor getBgraImageData at hok
  by_cases hbb : env.monitorBitBltOk
  · by_cases hdib : env.getDIBitsResult = 0
    · simp [hbb, hdib] at hok
    · simp [hbb, hdib] at hok
      have hlen : buf.length = width.toNat * height.toNat * 4 := by
        rw [← hok, extractedBuffer_length,
          bgraBufferSize_exact (le_of_lt hw) (le_of_lt hh) hr]
      rw [hlen]
      push_cast
      rw [Int.toNat_of_nonneg hw.le, Int.toNat_of_nonneg hh.le]
  · simp [hbb] at hok

/-- Witness for the amended C8 at 3 x 2: the returned buffer has 24
bytes. -/
theorem captureMonitorBgraData_length_witness :
    ((extractedBuffer envC8 3 2).length : Int) = 3 * 2 * 4 :=
  captureMonitorBgraData_length envC8 0 0 3 2 (extractedBuffer envC8 3 2)
    (by decide) (by decide) (by decide) rfl

/-- On every successful return of inne_capture_window, the final
is_success flag equals the disjunction of the four spec-side tier-success
predicates (first-success short-circuit). -/
lemma inneCaptureWindow_ok_succeeded (env : CaptureEnv) (scale : ℚ)
    (surf : WindowSurface)
    (hok : (inneCaptureWindow env scale).2 = .ok surf) :
    surf.succeeded = (tier1Succeeded env || tier2Succeeded env ||
      tier3Succeeded env || tier4Succeeded env) := by
  rcases env with ⟨os, wrect, comp, p2, p0, p3, wbb, mbb, dib, nb⟩
  unfold inneCaptureWindow at hok
  simp only [tier1Succeeded, tier2Succeeded, tier3Succeeded, tier4Succeeded,
    tier1Attempted, tier2Attempted, tier3Attempted, tier4Attempted,
    compositionIsEnabled]
  cases wrect with
  | none => simp at hok
  | some rect =>
    by_cases h8 : 8 ≤ os <;>
      rcases comp with _ | cval <;>
      (try cases cval) <;>
      cases p2 <;> cases p0 <;> cases p3 <;> cases wbb <;>
      simp [h8] at hok ⊢ <;>
      (try subst hok) <;>
      simp [h8]

/-- Claim C4: when every tier of the window-capture fallback chain fails
(including the final BitBlt), the call still proceeds to extract the
pixels from the off-screen surface and returns them as a successful
result (the bounds hypotheses keep the buffer arithmetic in i32 range so
that the final image construction is well-formed). -/
theorem captureWindow_all_tiers_failed (env : CaptureEnv) (scale : ℚ)
    (surf : WindowSurface)
    (hok : (inneCaptureWindow env scale).2 = .ok surf)
    (hp2 : env.printWindowFlag2 = false) (hp0 : env.printWindowFlag0 = false)
    (hp3 : env.printWindowFlag3 = false) (hbb : env.windowBitBltOk = false)
    (hdib : env.getDIBitsResult ≠ 0)
    (hw : 0 ≤ surf.width) (hh : 0 ≤ surf.height)
    (hr : surf.width * surf.height * 4 ≤ i32Max) :
    surf.succeeded = false ∧
    (captureWindow env scale).2 =
      .ok ⟨i32ToU32 surf.width, i32ToU32 surf.height,
           normalize env.osMajorVersion (extractedBuffer env surf.width surf.height)⟩ := by
  have hsucc : surf.succeeded = false := by
    rw [inneCaptureWindow_ok_succeeded env scale surf hok]
    simp [tier1Succeeded, tier2Succeeded, tier3Succeeded, tier4Succeeded,
      tier1Attempted, tier2Attempted, tier3Attempted, tier4Attempted,
      compositionIsEnabled, hp2, hp0, hp3, hbb]
  refine ⟨hsucc, ?_⟩
  obtain ⟨rect, hrect, hW, hH⟩ := inneCaptureWindow_ok env scale surf hok
  have hw2 : surf.width ≤ i32Max := by rw [hW]; exact f32AsI32_le _
  have hh2 : surf.height ≤ i32Max := by rw [hH]; exact f32AsI32_le _
  have hcond : i32ToU32 surf.width * i32ToU32 surf.height * 4
      = (normalize env.osMajorVersion
          (extractedBuffer env surf.width surf.height)).length := by
    rw [normalize_length, extractedBuffer_length, bgraBufferSize_exact hw hh hr,
      i32ToU32_of_nonneg hw hw2, i32ToU32_of_nonneg hh hh2]
  simp only [captureWindow, hok]
  simp only [toRgbaImage, getBgraImageData, if_neg hdib]
  simp only [rgbaFromRaw, if_pos (le_of_eq hcond)]

/-- An environment where get_window_rect returns a 2 x 2 rectangle but
every capture tier fails while extraction succeeds. -/
def envC4 : CaptureEnv :=
  ⟨10, some ⟨0, 0, 2, 2⟩, some true, false, false, false, false, false, 1, fun _ => 0⟩

/-- Witness for C4: with all four tiers failing, capture_window still
returns a successful 2 x 2 image. -/
theorem captureWindow_all_tiers_failed_witness :
    (WindowSurface.mk 2 2 false).succeeded = false ∧
    (captureWindow envC4 1).2 =
      .ok ⟨i32ToU32 2, i32ToU32 2,
           normalize envC4.osMajorVersion (extractedBuffer envC4 2 2)⟩ :=
  captureWindow_all_tiers_failed envC4 1 ⟨2, 2, false⟩ (by with_unfolding_all rfl)
    rfl rfl rfl rfl (by decide) (by decide) (by decide) (by decide)

/-- An environment with the degenerate rectangle (0, 0, -3, 10) on which
Tier 1 succeeds. -/
def envC6 : CaptureEnv :=
  ⟨10, some ⟨0, 0, -3, 10⟩, some true, true, false, false, false, false, 1, fun _ => 0⟩

/-- The concrete scenario environment: window rectangle
(left 10, top 20, right 110, bottom 220), Tier 1 succeeds. -/
def envC6a : CaptureEnv :=
  ⟨10, some ⟨10, 20, 110, 220⟩, some true, true, false, false, false, false, 1, fun _ => 0⟩

/-- Counterexample to C6 as stated: the Rust `as i32` cast truncates
toward zero, not toward minus infinity, so for the rectangle
(0, 0, -3, 10) at scale 1/2 the requested width is -1 while
floor(rawDim * scaleFactor) = floor(-3/2) = -2. -/
theorem window_dimensions_cex :
    (inneCaptureWindow envC6 (1/2)).2 = .ok ⟨-1, 5, true⟩ ∧
    ⌊((-3 : Int) : ℚ) * (1/2)⌋ = -2 :=
  ⟨by with_unfolding_all rfl, by with_unfolding_all decide⟩

/-- Claim C6 (amended): the off-screen surface dimensions are the
saturating truncation toward zero of rawDim * scaleFactor (Rust `as i32`),
which agrees with floor whenever the product is nonnegative and in i32
range; in particular for the rectangle (10, 20, 110, 220) the call with
scale 1 requests 100 x 200 and the call with scale 1/2 requests 50 x 100. -/
theorem window_dimensions (env : CaptureEnv) (scale : ℚ) (surf : WindowSurface)
    (rect : WinRect) (hrect : env.windowRect = some rect)
    (hok : (inneCaptureWindow env scale).2 = .ok surf) :
    (surf.width = f32AsI32 ((wrapI32 (rect.right - rect.left) : ℚ) * scale) ∧
     surf.height = f32AsI32 ((wrapI32 (rect.bottom - rect.top) : ℚ) * scale)) ∧
    (∀ x : ℚ, 0 ≤ x → x ≤ ((i32Max : Int) : ℚ) → f32AsI32 x = ⌊x⌋) ∧
    (inneCaptureWindow envC6a 1).2 = .ok ⟨100, 200, true⟩ ∧
    (inneCaptureWindow envC6a (1/2)).2 = .ok ⟨50, 100, true⟩ := by
  obtain ⟨rect2, hrect2, hW, hH⟩ := inneCaptureWindow_ok env scale surf hok
  rw [hrect] at hrect2
  injection hrect2 with hre
  subst hre
  exact ⟨⟨hW, hH⟩, fun x h1 h2 => f32AsI32_floor x h1 h2,
    by with_unfolding_all rfl, by with_unfolding_all rfl⟩

/-- Witness for C6 at the concrete scenario rectangle with scale 1: the
surface is 100 x 200. -/
theorem window_dimensions_witness :
    (WindowSurface.mk 100 200 true).width
        = f32AsI32 ((wrapI32 (110 - 10) : ℚ) * 1) ∧
    (WindowSurface.mk 100 200 true).height
        = f32AsI32 ((wrapI32 (220 - 20) : ℚ) * 1) :=
  (window_dimensions envC6a 1 ⟨100, 200, true⟩ ⟨10, 20, 110, 220⟩ rfl
    (by with_unfolding_all rfl)).1

/-- An environment where Tier 1 succeeds while the composition query
would fail. -/
def envC7 : CaptureEnv :=
  ⟨10, some ⟨0, 0, 100, 200⟩, none, true, false, false, false, false, 1, fun _ => 0⟩

/-- An environment where Tier 1 fails and the composition query fails. -/
def envC7b : CaptureEnv :=
  ⟨10, some ⟨0, 0, 100, 200⟩, none, false, false, false, false, false, 1, fun _ => 0⟩

/-- Counterexample to C7 as stated: when Tier 1 succeeds, the composition
query is never performed (Rust short-circuit and-then), even though the
query would fail; the call succeeds, so the query failure is not
propagated and the query is not live on every call. -/
theorem composition_query_cex :
    (inneCaptureWindow envC7 1).1.count Event.queryComposition = 0 ∧
    envC7.compositionEnabled = none ∧
    (inneCaptureWindow envC7 1).2 = .ok ⟨100, 200, true⟩ :=
  ⟨by with_unfolding_all rfl, rfl, by with_unfolding_all rfl⟩

/-- Claim C7 (amended): when the window rectangle resolves, the
composition-enabled query is performed iff Tier 1 did not succeed; and
whenever the query is performed and fails, that failure is propagated as
the capture call's failure. -/
theorem composition_query_propagation (env : CaptureEnv) (scale : ℚ)
    (rect : WinRect) (hrect : env.windowRect = some rect) :
    ((Event.queryComposition ∈ (inneCaptureWindow env scale).1) ↔
       tier1Succeeded env = false) ∧
    (tier1Succeeded env = false → env.compositionEnabled = none →
       (inneCaptureWindow env scale).2 = .error "DwmIsCompositionEnabled failed") := by
  rcases env with ⟨os, wrect, comp, p2, p0, p3, wbb, mbb, dib, nb⟩
  subst hrect
  by_cases h8 : 8 ≤ os <;>
    rcases comp with _ | cval <;>
    (try cases cval) <;>
    cases p2 <;> cases p0 <;> cases p3 <;> cases wbb <;>
    simp [inneCaptureWindow, tier1Succeeded, tier1Attempted, h8]

/-- Witness for C7 (amended): with Tier 1 failing and the composition
query failing, the query is performed and its failure becomes the call's
failure. -/
theorem composition_query_propagation_witness :
    (inneCaptureWindow envC7b 1).2 = .error "DwmIsCompositionEnabled failed" ∧
    Event.queryComposition ∈ (inneCaptureWindow envC7b 1).1 := by
  have h := composition_query_propagation envC7b 1 ⟨0, 0, 100, 200⟩ rfl
  exact ⟨h.2 rfl rfl, h.1.mpr rfl⟩

/-- An environment where Tier 1 is attempted and fails and the
composition query fails. -/
def envC1 : CaptureEnv :=
  ⟨10, some ⟨0, 0, 100, 200⟩, none, false, false, false, false, false, 1, fun _ => 0⟩

/-- An environment on OS 9 where Tiers 1 and 2 fail and Tier 3
succeeds. -/
def envC1w : CaptureEnv :=
  ⟨9, some ⟨0, 0, 100, 200⟩, some true, false, false, true, false, false, 1, fun _ => 0⟩

/-- Counterexample to C1 as stated: with Tier 1 attempted and failed and
the composition query itself failing, no earlier tier succeeded, yet
Tier 3 is never attempted because the call aborts with the query's error,
contradicting the claimed iff for Tier 3. -/
theorem tier_selection_cex :
    tier3Attempted envC1 = true ∧
    (inneCaptureWindow envC1 1).1.count (Event.attempt Tier.tier3) = 0 :=
  ⟨rfl, by with_unfolding_all rfl⟩

set_option maxHeartbeats 1600000 in
/-- Claim C1 (amended): on every window capture call whose rectangle
resolves and which does not abort on a failed composition query, each
tier is attempted exactly once iff its spec-side attempt condition holds
(Tier 1: OS major version at least 8; Tier 2: Tier 1 skipped or failed
and composition enabled; Tiers 3 and 4: no earlier tier succeeded), so
the chain stops at the first success. -/
theorem tier_selection (env : CaptureEnv) (scale : ℚ) (rect : WinRect)
    (hrect : env.windowRect = some rect)
    (hq : tier1Succeeded env = true ∨ env.compositionEnabled ≠ none) :
    (inneCaptureWindow env scale).1.count (Event.attempt Tier.tier1)
        = (if tier1Attempted env then 1 else 0) ∧
    (inneCaptureWindow env scale).1.count (Event.attempt Tier.tier2)
        = (if tier2Attempted env then 1 else 0) ∧
    (inneCaptureWindow env scale).1.count (Event.attempt Tier.tier3)
        = (if tier3Attempted env then 1 else 0) ∧
    (inneCaptureWindow env scale).1.count (Event.attempt Tier.tier4)
        = (if tier4Attempted env then 1 else 0) := by
  rcases env with ⟨os, wrect, comp, p2, p0, p3, wbb, mbb, dib, nb⟩
  subst hrect
  rcases comp with _ | cval
  · have hforced : 8 ≤ os ∧ p2 = true := by
      rcases hq with hq | hq
      · simp only [tier1Succeeded, tier1Attempted, Bool.and_eq_true,
          decide_eq_true_eq] at hq
        exact hq
      · simp at hq
    obtain ⟨h8, hp2⟩ := hforced
    subst hp2
    simp [inneCaptureWindow, tier1Succeeded, tier2Succeeded, tier3Succeeded,
      tier1Attempted, tier2Attempted, tier3Attempted, tier4Attempted,
      compositionIsEnabled, h8]
  · by_cases h8 : 8 ≤ os <;>
      cases p2 <;> cases cval <;> cases p0 <;> cases p3 <;> cases wbb <;>
      simp [inneCaptureWindow, tier1Succeeded, tier2Succeeded, tier3Succeeded,
        tier1Attempted, tier2Attempted, tier3Attempted, tier4Attempted,
        compositionIsEnabled, h8]

/-- Witness for C1 (amended) on OS 9 with Tier 3 the first to succeed:
Tiers 1, 2, 3 attempted once each, Tier 4 never. -/
theorem tier_selection_witness :
    (inneCaptureWindow envC1w 1).1.count (Event.attempt Tier.tier1) = 1 ∧
    (inneCaptureWindow envC1w 1).1.count (Event.attempt Tier.tier2) = 1 ∧
    (inneCaptureWindow envC1w 1).1.count (Event.attempt Tier.tier3) = 1 ∧
    (inneCaptureWindow envC1w 1).1.count (Event.attempt Tier.tier4) = 0 := by
  have h := tier_selection envC1w 1 ⟨0, 0, 100, 200⟩ rfl (Or.inr (by decide))
  exact ⟨h.1, h.2.1, h.2.2.1, h.2.2.2⟩

lemma captureWindow_fst (env : CaptureEnv) (scale : ℚ) :
    (captureWindow env scale).1 =
      (inneCaptureWindow env scale).1 ++
        (match (inneCaptureWindow env scale).2 with
          | .error _ => []
          | .ok _ => [Event.releaseBitmap, Event.releaseMemDC]) := by
  unfold captureWindow
  cases hq : (inneCaptureWindow env scale).2 with
  | error e => simp [hq]
  | ok surf => simp [hq, toRgbaImage_fst]

/-- An environment where the monitor capture succeeds end to end. -/
def envC2 : CaptureEnv :=
  ⟨10, none, none, false, false, false, false, true, 1, fun _ => 0⟩

/-- Counterexample to C2 as stated: a fully successful monitor capture
releases the off-screen drawing surface exactly once but never restores
the previously selected object (inner_capture_monitor discards the
SelectObject return value), so the restore-exactly-once clause fails. -/
theorem resource_accounting_cex :
    (captureMonitorBgraData envC2 0 0 2 2).2 = .ok (extractedBuffer envC2 2 2) ∧
    (captureMonitorBgraData envC2 0 0 2 2).1.count Event.releaseMemDC = 1 ∧
    (captureMonitorBgraData envC2 0 0 2 2).1.count Event.restorePrevious = 0 :=
  ⟨rfl, rfl, rfl⟩

set_option maxHeartbeats 1600000 in
/-- Claim C2 (amended): on every monitor or window capture call and every
exit path, the number of handle acquisitions equals the number of handle
releases; and on every window capture call that reaches the tier chain's
end (a successful inne_capture_window return), the previously selected
object is restored exactly once, before the off-screen drawing surface's
release. Monitor captures, and window captures aborted by a failed
composition query, release the off-screen surfaces without a restore. -/
theorem resource_accounting (env : CaptureEnv) (x y width height : Int) (scale : ℚ) :
    balanced (captureMonitorBgraData env x y width height).1 ∧
    balanced (captureWindow env scale).1 ∧
    (∀ surf : WindowSurface, (inneCaptureWindow env scale).2 = .ok surf →
       (captureWindow env scale).1.count Event.restorePrevious = 1 ∧
       [Event.restorePrevious, Event.releaseMemDC].Sublist (captureWindow env scale).1) := by
  refine ⟨?_, ?_, ?_⟩
  · rcases env with ⟨os, wrect, comp, p2, p0, p3, wbb, mbb, dib, nb⟩
    cases mbb <;> by_cases hdib : dib = 0 <;>
      simp [captureMonitorBgraData, innerCaptureMonitor, getBgraImageData, hdib,
        balanced, countAcquires, countReleases, Event.isAcquire, Event.isRelease]
  · rw [captureWindow_fst]
    rcases env with ⟨os, wrect, comp, p2, p0, p3, wbb, mbb, dib, nb⟩
    cases wrect with
    | none =>
      simp [inneCaptureWindow, balanced, countAcquires, countReleases,
        Event.isAcquire, Event.isRelease]
    | some rect =>
      by_cases h8 : 8 ≤ os <;>
        cases p2 <;> rcases comp with _ | cval <;> (try cases cval) <;>
        cases p0 <;> cases p3 <;> cases wbb <;>
        simp [inneCaptureWindow, h8, balanced, countAcquires, countReleases,
          Event.isAcquire, Event.isRelease]
  · intro surf hok
    rw [captureWindow_fst, hok]
    rcases env with ⟨os, wrect, comp, p2, p0, p3, wbb, mbb, dib, nb⟩
    cases wrect with
    | none => simp [inneCaptureWindow] at hok
    | some rect =>
      by_cases h8 : 8 ≤ os <;>
        cases p2 <;> rcases comp with _ | cval <;> (try cases cval) <;>
        cases p0 <;> cases p3 <;> cases wbb <;>
        simp [inneCaptureWindow, h8] at hok ⊢ <;>
        decide

/-- An environment where Tier 1 succeeds for a 2 x 2 window. -/
def envC2w : CaptureEnv :=
  ⟨10, some ⟨0, 0, 2, 2⟩, some true, true, false, false, false, false, 1, fun _ => 0⟩

/-- Witness for C2 (amended): on a successful window capture, acquisitions
match releases and the previous object is restored exactly once. -/
theorem resource_accounting_witness :
    balanced (captureWindow envC2w 1).1 ∧
    (captureWindow envC2w 1).1.count Event.restorePrevious = 1 := by
  have h := resource_accounting envC2w 0 0 2 2 1
  exact ⟨h.2.1, (h.2.2 ⟨2, 2, true⟩ (by with_unfolding_all rfl)).1⟩

end XCap
